import Mathlib

/-!
Verification of the offline-first contact manager (Angular client + Express
backend) against its natural-language specification.

The client logic is embedded from `src/app/core/services/contact.service.ts`
(ContactService and SyncService) and, for the picture-preservation path, from
the service variant that carries the picture-merge logic in `updateContact`.
The backend POST handler is embedded from the Express server file.

Conventions of the shallow embedding:
- The browser clock and random id generator are modelled as explicit string
  parameters (`nowIso`, `genId`, `logId`, `logTs`): the code derives these
  values from `Date.now()` / `Math.random()` at call time.
- `localStorage` slots are modelled at the decoded level: `storedContacts`
  is the parsed content of the contact-snapshot slot and `pendingOps` the
  parsed content of the pending-operation slot.  The raw string level (JSON
  parse failures) is modelled separately for `loadContactsFromStorage`.
- Every HTTP interaction is modelled by a result parameter describing how the
  promise settles (resolved with a body / resolved without the expected field /
  rejected), and the calls issued are recorded in an explicit trace.
-/

namespace ContactManager

/-- JavaScript `s1 || s2` on strings: the empty string is falsy. -/
def jsOrStr (s d : String) : String :=
  if s = "" then d else s

/-- JavaScript `x || d` where `x` is an optional string (`undefined` or a
string, the empty string being falsy). -/
def jsOr (x : Option String) (d : String) : String :=
  match x with
  | none => d
  | some s => jsOrStr s d

/-- The `name` field of a Contact (`contact.model.ts`). -/
structure FullName where
  first : String
  last : String
deriving Repr, DecidableEq

/-- The `location.street` field of a Contact. -/
structure StreetInfo where
  number : Int
  name : String
deriving Repr, DecidableEq

/-- The `location` field of a Contact. -/
structure LocationInfo where
  street : StreetInfo
  city : String
  state : String
  country : String
  postcode : String
deriving Repr, DecidableEq

/-- The `picture` field of a Contact: three URL strings. -/
structure Picture where
  large : String
  medium : String
  thumbnail : String
deriving Repr, DecidableEq

/-- The `dob` and `registered` fields of a Contact: a `{date, age}` pair. -/
structure DateAge where
  date : String
  age : Int
deriving Repr, DecidableEq

/-- The Contact entity, from `contact.model.ts`.  Optional TS fields
(`id?`, `isOnline?`, `pendingSync?`, `isFavorite?`) are `Option`s. -/
structure Contact where
  id : Option String
  name : FullName
  email : String
  phone : String
  cell : String
  location : LocationInfo
  picture : Picture
  dob : DateAge
  registered : DateAge
  isOnline : Option Bool
  pendingSync : Option Bool
  isFavorite : Option Bool
deriving Repr, DecidableEq

/-- The ContactFormData interface, from `contact.model.ts`. -/
structure ContactFormData where
  id : Option String
  firstName : String
  lastName : String
  email : String
  phone : String
  cell : String
  street : String
  city : String
  state : String
  country : String
  postcode : String
  age : Int
  picture : Option String
deriving Repr, DecidableEq

/-- The kind of a queued mutation. -/
inductive OpType
  | CREATE
  | UPDATE
  | DELETE
deriving Repr, DecidableEq

/-- A record of the Pending Operation Log, as pushed by
`SyncService.addPendingOperation`. -/
structure PendingOperation where
  id : String
  operation : OpType
  data : Contact
  timestamp : String
  retryCount : Nat
deriving Repr, DecidableEq

/-- An HTTP request issued against the Remote Store. -/
inductive RemoteCall
  | post (body : Contact)
  | put (id : Option String) (body : Contact)
  | del (id : Option String)
  | getAll
  | postRandom (count : Int)
deriving Repr, DecidableEq

/-- Whether a remote call mutates the Remote Store. -/
def isMutationCall : RemoteCall → Bool
  | .post _ => true
  | .put _ _ => true
  | .del _ => true
  | .getAll => false
  | .postRandom _ => true

/-- The client-side state the engine reads and writes: the in-memory
contacts signal, the decoded contact-snapshot slot, the decoded
pending-operation slot, and the error signal. -/
structure ClientState where
  contacts : List Contact
  storedContacts : List Contact
  pendingOps : List PendingOperation
  errorMsg : Option String
deriving Repr, DecidableEq

/-- The outcome of one engine operation: final state, the trace of remote
calls issued, each write to the pending-operation slot, each write to the
contact-snapshot slot, and the returned value. -/
structure EngineResult (α : Type) where
  contacts : List Contact
  storedContacts : List Contact
  pendingOps : List PendingOperation
  errorMsg : Option String
  remoteCalls : List RemoteCall
  logWrites : List (List PendingOperation)
  snapshotWrites : List (List Contact)
  ret : α
deriving Repr

/-- How the `GET /contacts` promise settled. -/
inductive GetContactsResult
  | ok (contacts : List Contact)
  | noBody
  | failed
deriving Repr, DecidableEq

/-- How the `POST /contacts` promise settled on the client, carrying the
HTTP status and the `error.error` message of a rejection. -/
inductive PostContactResult
  | ok (contact : Contact)
  | okNoContact
  | failedStatus (status : Nat) (serverMsg : Option String)
deriving Repr, DecidableEq

/-- How the `PUT /contacts/:id` promise settled on the client. -/
inductive PutContactResult
  | ok (contact : Contact)
  | okNoContact
  | failed
deriving Repr, DecidableEq

/-- How the `DELETE /contacts/:id` promise settled on the client. -/
inductive DeleteResult
  | ok
  | failed
deriving Repr, DecidableEq

/-- How the `POST /contacts/random` promise settled on the client. -/
inductive PostRandomResult
  | ok (contacts : List Contact)
  | okNoContacts
  | failed
deriving Repr, DecidableEq

/-- `ContactService.transformFormDataToContact`: builds a full Contact from
form fields.  `nowIso` models `new Date().toISOString()` and `genId` the
`generateId()` value used when no id is supplied. -/
def transformFormDataToContact (nowIso genId : String) (formData : ContactFormData)
    (id : Option String) : Contact :=
  { id := some (jsOr id genId)
    name := { first := formData.firstName, last := formData.lastName }
    email := formData.email
    phone := formData.phone
    cell := formData.cell
    location :=
      { street := { number := 0, name := formData.street }
        city := formData.city
        state := formData.state
        country := formData.country
        postcode := formData.postcode }
    picture :=
      { large := jsOr formData.picture ""
        medium := jsOr formData.picture ""
        thumbnail := jsOr formData.picture "" }
    dob := { date := nowIso, age := formData.age }
    registered := { date := nowIso, age := 0 }
    isOnline := none
    pendingSync := none
    isFavorite := none }

/-- `SyncService.loadContactsFromStorage`, at the raw string level of the
snapshot slot.  `decode` models `JSON.parse` reading a Contact array
(`none` models a parse exception, which the catch swallows); `getItem`
returning `null` or the falsy empty string yields the empty list. -/
def loadContactsFromStorage (decode : String → Option (List Contact))
    (slot : Option String) : List Contact :=
  match slot with
  | none => []
  | some raw => if raw = "" then [] else (decode raw).getD []

/-- `SyncService.addPendingOperation`: pushes one record with the freshly
generated id (`Date.now().toString()`), the current timestamp and
`retryCount = 0` onto the decoded pending-operation slot. -/
def addPendingOperation (logId logTs : String) (operation : OpType) (contact : Contact)
    (log : List PendingOperation) : List PendingOperation :=
  log ++ [{ id := logId, operation := operation, data := contact,
            timestamp := logTs, retryCount := 0 }]

/-- `ContactService.loadContacts`.  Online it issues `GET /contacts`; a
resolved response with a `contacts` body replaces the signal and the
persisted snapshot; a rejection is caught, sets the load error and falls
back to the stored snapshot, clearing the error again when the fallback is
nonempty.  Offline it reloads the signal from the stored snapshot.  The
error signal is cleared at entry. -/
def loadContacts (online : Bool) (serverGet : GetContactsResult)
    (st : ClientState) : EngineResult Unit :=
  if online then
    match serverGet with
    | .ok cs =>
        { contacts := cs, storedContacts := cs, pendingOps := st.pendingOps
          errorMsg := none, remoteCalls := [.getAll], logWrites := []
          snapshotWrites := [cs], ret := () }
    | .noBody =>
        { contacts := st.contacts, storedContacts := st.storedContacts
          pendingOps := st.pendingOps, errorMsg := none
          remoteCalls := [.getAll], logWrites := [], snapshotWrites := []
          ret := () }
    | .failed =>
        { contacts := st.storedContacts, storedContacts := st.storedContacts
          pendingOps := st.pendingOps
          errorMsg := if st.storedContacts.length > 0 then none
                      else some "Failed to load contacts from server"
          remoteCalls := [.getAll], logWrites := [], snapshotWrites := []
          ret := () }
  else
    { contacts := st.storedContacts, storedContacts := st.storedContacts
      pendingOps := st.pendingOps, errorMsg := none
      remoteCalls := [], logWrites := [], snapshotWrites := [], ret := () }

/-- `ContactService.createContact`.  Online: `POST /contacts`; a resolved
response with a contact is appended to the signal and persisted; a rejection
is caught, and only status 409 yields the duplicate-email message
(`error.error?.error || default`), every other status the generic one.
Offline: overwrite the id with a fresh `generateId()` value (`genId2`), set
`pendingSync`, append to the snapshot, persist, and queue a CREATE record. -/
def createContact (online : Bool) (post : PostContactResult)
    (nowIso genId1 genId2 logId logTs : String)
    (st : ClientState) (formData : ContactFormData) : EngineResult (Option Contact) :=
  let newContact := transformFormDataToContact nowIso genId1 formData none
  if online then
    match post with
    | .ok c =>
        let updated := st.contacts ++ [c]
        { contacts := updated, storedContacts := updated
          pendingOps := st.pendingOps, errorMsg := st.errorMsg
          remoteCalls := [.post newContact], logWrites := []
          snapshotWrites := [updated], ret := some c }
    | .okNoContact =>
        { contacts := st.contacts, storedContacts := st.storedContacts
          pendingOps := st.pendingOps, errorMsg := st.errorMsg
          remoteCalls := [.post newContact], logWrites := []
          snapshotWrites := [], ret := none }
    | .failedStatus status serverMsg =>
        { contacts := st.contacts, storedContacts := st.storedContacts
          pendingOps := st.pendingOps
          errorMsg := some (if status = 409 then
              jsOr serverMsg "Email already exists. Please use a different email address."
            else "Failed to create contact")
          remoteCalls := [.post newContact], logWrites := []
          snapshotWrites := [], ret := none }
  else
    let c := { newContact with id := some genId2, pendingSync := some true }
    let updated := st.contacts ++ [c]
    let newLog := addPendingOperation logId logTs .CREATE c st.pendingOps
    { contacts := updated, storedContacts := updated, pendingOps := newLog
      errorMsg := st.errorMsg, remoteCalls := [], logWrites := [newLog]
      snapshotWrites := [updated], ret := some c }

/-- `ContactService.deleteContact`.  Online, the awaited `DELETE` happens
inside the try block before the cache is filtered, so a rejected remote call
jumps to the catch: the error is set, `false` returned, and the cache is
left untouched.  Offline, a DELETE record is queued when the contact is
found, then the cache is filtered and persisted. -/
def deleteContact (online : Bool) (remote : DeleteResult) (logId logTs : String)
    (st : ClientState) (id : String) : EngineResult Bool :=
  if online then
    match remote with
    | .ok =>
        let updated := st.contacts.filter (fun c => !(c.id == some id))
        { contacts := updated, storedContacts := updated
          pendingOps := st.pendingOps, errorMsg := st.errorMsg
          remoteCalls := [.del (some id)], logWrites := []
          snapshotWrites := [updated], ret := true }
    | .failed =>
        { contacts := st.contacts, storedContacts := st.storedContacts
          pendingOps := st.pendingOps
          errorMsg := some "Failed to delete contact"
          remoteCalls := [.del (some id)], logWrites := []
          snapshotWrites := [], ret := false }
  else
    let found := st.contacts.find? (fun c => c.id == some id)
    let newLog := match found with
      | some c => addPendingOperation logId logTs .DELETE c st.pendingOps
      | none => st.pendingOps
    let updated := st.contacts.filter (fun c => !(c.id == some id))
    { contacts := updated, storedContacts := updated, pendingOps := newLog
      errorMsg := st.errorMsg, remoteCalls := []
      logWrites := match found with
        | some _ => [newLog]
        | none => []
      snapshotWrites := [updated], ret := true }

/-- `ContactService.performContactUpdate`, the shared path of `updateContact`
and `toggleFavorite`.  Online: `PUT /contacts/:id`; the resolved contact is
spliced into the cache at the matching index and persisted (no splice when
the id is absent locally); a rejection sets the supplied error message.
Offline: `pendingSync` is set, and only when the id is found locally is the
cache spliced, persisted and an UPDATE record queued; otherwise the call
returns null leaving all state untouched. -/
def performContactUpdate (online : Bool) (put : PutContactResult) (logId logTs : String)
    (st : ClientState) (id : String) (updatedContact : Contact)
    (errorMessage : String) : EngineResult (Option Contact) :=
  if online then
    match put with
    | .ok c =>
        match st.contacts.findIdx? (fun x => x.id == some id) with
        | some i =>
            let updated := st.contacts.set i c
            { contacts := updated, storedContacts := updated
              pendingOps := st.pendingOps, errorMsg := st.errorMsg
              remoteCalls := [.put (some id) updatedContact], logWrites := []
              snapshotWrites := [updated], ret := some c }
        | none =>
            { contacts := st.contacts, storedContacts := st.storedContacts
              pendingOps := st.pendingOps, errorMsg := st.errorMsg
              remoteCalls := [.put (some id) updatedContact], logWrites := []
              snapshotWrites := [], ret := some c }
    | .okNoContact =>
        { contacts := st.contacts, storedContacts := st.storedContacts
          pendingOps := st.pendingOps, errorMsg := st.errorMsg
          remoteCalls := [.put (some id) updatedContact], logWrites := []
          snapshotWrites := [], ret := none }
    | .failed =>
        { contacts := st.contacts, storedContacts := st.storedContacts
          pendingOps := st.pendingOps, errorMsg := some errorMessage
          remoteCalls := [.put (some id) updatedContact], logWrites := []
          snapshotWrites := [], ret := none }
  else
    let uc := { updatedContact with pendingSync := some true }
    match st.contacts.findIdx? (fun x => x.id == some id) with
    | some i =>
        let updated := st.contacts.set i uc
        let newLog := addPendingOperation logId logTs .UPDATE uc st.pendingOps
        { contacts := updated, storedContacts := updated, pendingOps := newLog
          errorMsg := st.errorMsg, remoteCalls := [], logWrites := [newLog]
          snapshotWrites := [updated], ret := some uc }
    | none =>
        { contacts := st.contacts, storedContacts := st.storedContacts
          pendingOps := st.pendingOps, errorMsg := st.errorMsg
          remoteCalls := [], logWrites := [], snapshotWrites := [], ret := none }

/-- `ContactService.addRandomContacts`.  Online, a resolved response with
contacts triggers an awaited `loadContacts()` and returns the generated
contacts; a rejection sets the generic failure.  Offline, the offline error
is set and the empty list returned without any remote call or storage
write. -/
def addRandomContacts (online : Bool) (randomPost : PostRandomResult)
    (serverGet : GetContactsResult) (count : Int)
    (st : ClientState) : EngineResult (List Contact) :=
  if online then
    match randomPost with
    | .ok cs =>
        let r := loadContacts true serverGet st
        { contacts := r.contacts, storedContacts := r.storedContacts
          pendingOps := r.pendingOps, errorMsg := r.errorMsg
          remoteCalls := .postRandom count :: r.remoteCalls
          logWrites := r.logWrites, snapshotWrites := r.snapshotWrites
          ret := cs }
    | .okNoContacts =>
        { contacts := st.contacts, storedContacts := st.storedContacts
          pendingOps := st.pendingOps, errorMsg := st.errorMsg
          remoteCalls := [.postRandom count], logWrites := []
          snapshotWrites := [], ret := [] }
    | .failed =>
        { contacts := st.contacts, storedContacts := st.storedContacts
          pendingOps := st.pendingOps
          errorMsg := some "Failed to add random contacts"
          remoteCalls := [.postRandom count], logWrites := []
          snapshotWrites := [], ret := [] }
  else
    { contacts := st.contacts, storedContacts := st.storedContacts
      pendingOps := st.pendingOps
      errorMsg := some "Cannot add random contacts while offline"
      remoteCalls := [], logWrites := [], snapshotWrites := [], ret := [] }

/-- Maps a queued record to the remote call the drain loop issues for it
(`POST` for CREATE, `PUT .../id` for UPDATE, `DELETE .../id` for DELETE). -/
def opToCall (op : PendingOperation) : RemoteCall :=
  match op.operation with
  | .CREATE => .post op.data
  | .UPDATE => .put op.data.id op.data
  | .DELETE => .del op.data.id

/-- The `for (const op of operations)` loop of
`SyncService.syncPendingOperations`: each iteration issues the remote call
for its record inside a per-record try/catch (a rejection is logged and the
loop continues) and pushes the record id onto `successfulOperations` when
the call resolves.  `outcome i` tells whether the call of the record at
position `i` resolves.  Returns the trace of calls issued and the
`successfulOperations` list, both in iteration order. -/
def drainLoop (outcome : Nat → Bool) : Nat → List PendingOperation →
    List RemoteCall × List String
  | _, [] => ([], [])
  | i, op :: rest =>
    (opToCall op :: (drainLoop outcome (i + 1) rest).1,
     if outcome i then op.id :: (drainLoop outcome (i + 1) rest).2
     else (drainLoop outcome (i + 1) rest).2)

/-- `SyncService.syncPendingOperations`.  With a nonempty decoded log it runs
the drain loop over every record, rewrites the pending-operation slot once
with the records whose id is not in `successfulOperations`, and, when at
least one call succeeded, awaits the registered refresh callback — which is
`ContactService.loadContacts` (the constructor of ContactService registers
it) — and returns true.  With an empty log it awaits the same refresh
callback and returns false. -/
def syncPendingOperations (outcome : Nat → Bool) (online : Bool)
    (serverGet : GetContactsResult) (st : ClientState) : EngineResult Bool :=
  let ops := st.pendingOps
  if ops.length > 0 then
    let calls := (drainLoop outcome 0 ops).1
    let succIds := (drainLoop outcome 0 ops).2
    let remaining := ops.filter (fun op => !(succIds.contains op.id))
    if succIds.length > 0 then
      let st2 : ClientState :=
        { contacts := st.contacts, storedContacts := st.storedContacts
          pendingOps := remaining, errorMsg := st.errorMsg }
      let r := loadContacts online serverGet st2
      { contacts := r.contacts, storedContacts := r.storedContacts
        pendingOps := r.pendingOps, errorMsg := r.errorMsg
        remoteCalls := calls ++ r.remoteCalls
        logWrites := [remaining] ++ r.logWrites
        snapshotWrites := r.snapshotWrites, ret := true }
    else
      { contacts := st.contacts, storedContacts := st.storedContacts
        pendingOps := remaining, errorMsg := st.errorMsg
        remoteCalls := calls, logWrites := [remaining]
        snapshotWrites := [], ret := false }
  else
    let r := loadContacts online serverGet st
    { contacts := r.contacts, storedContacts := r.storedContacts
      pendingOps := r.pendingOps, errorMsg := r.errorMsg
      remoteCalls := r.remoteCalls, logWrites := r.logWrites
      snapshotWrites := r.snapshotWrites, ret := false }

/-- The `localImageMap` of `SyncService.softRefreshContacts`: built by
iterating the stored contacts and, for each one with a truthy id (the
`picture` object of a typed Contact is always truthy), mapping that id to
its picture; a later entry with the same id overwrites an earlier one. -/
def buildImageMap (cache : List Contact) : String → Option Picture :=
  cache.foldl
    (fun m c =>
      match c.id with
      | some cid => if cid = "" then m else fun k => if k = cid then some c.picture else m k
      | none => m)
    (fun _ => none)

/-- `SyncService.softRefreshContacts`: reads the stored snapshot, builds the
local image map, fetches the remote collection, replaces each returned
server picture by the locally held one at a matching id, persists the merged
list and returns it.  The in-memory contacts signal is not touched.  A
rejection or a response without contacts returns null. -/
def softRefreshContacts (serverGet : GetContactsResult)
    (st : ClientState) : EngineResult (Option (List Contact)) :=
  let imageMap := buildImageMap st.storedContacts
  match serverGet with
  | .ok cs =>
      let merged := cs.map (fun sc =>
        match imageMap (jsOr sc.id "") with
        | some pic => { sc with picture := pic }
        | none => sc)
      { contacts := st.contacts, storedContacts := merged
        pendingOps := st.pendingOps, errorMsg := st.errorMsg
        remoteCalls := [.getAll], logWrites := []
        snapshotWrites := [merged], ret := some merged }
  | .noBody =>
      { contacts := st.contacts, storedContacts := st.storedContacts
        pendingOps := st.pendingOps, errorMsg := st.errorMsg
        remoteCalls := [.getAll], logWrites := [], snapshotWrites := []
        ret := none }
  | .failed =>
      { contacts := st.contacts, storedContacts := st.storedContacts
        pendingOps := st.pendingOps, errorMsg := st.errorMsg
        remoteCalls := [.getAll], logWrites := [], snapshotWrites := []
        ret := none }

/-- The guard of the picture-preservation branch in the service variant of
`ContactService.updateContact`: `contactData.picture && picture !==
existing.large && picture !== existing.medium && picture !==
existing.thumbnail` (a missing or empty form picture is falsy). -/
def isNewPictureProvided (formPicture : Option String) (pic : Picture) : Bool :=
  match formPicture with
  | none => false
  | some p => !(p == "") && !(p == pic.large) && !(p == pic.medium) && !(p == pic.thumbnail)

/-- The contact built at the head of `ContactService.updateContact` in the
service variant carrying the preservation logic: the form is transformed
with the existing id, and when an existing cached contact is found and no
genuinely new picture is provided, its three picture URLs (each passed
through `||` with the empty string) replace the transformed ones.  The
`lastModified` stamp of that variant is outside the Contact interface and
not modelled. -/
def updateContactBuild (nowIso genId : String) (cache : List Contact) (id : String)
    (formData : ContactFormData) : Contact :=
  let existingContact := cache.find? (fun c => c.id == some id)
  let updatedContact := transformFormDataToContact nowIso genId formData (some id)
  match existingContact with
  | some ec =>
      if isNewPictureProvided formData.picture ec.picture then updatedContact
      else
        { updatedContact with picture :=
            { large := jsOrStr ec.picture.large ""
              medium := jsOrStr ec.picture.medium ""
              thumbnail := jsOrStr ec.picture.thumbnail "" } }
  | none => updatedContact

/-- A response of the Express backend: HTTP status, optional contact body,
optional error message. -/
structure ServerResponse where
  status : Nat
  contact : Option Contact
  errorMsg : Option String
deriving Repr, DecidableEq

/-- Whether the sqlite INSERT of `app.post(/api/contacts)` errors: exactly
when the UNIQUE constraint on `email` or the PRIMARY KEY constraint on `id`
is violated by the existing rows. -/
def dbInsertFails (rows : List Contact) (email cid : String) : Bool :=
  rows.any (fun r => r.email == email) || rows.any (fun r => r.id == some cid)

/-- The `app.post(/api/contacts)` handler of the Express backend: the body
is transformed for the DB (`id: contact.id || uuidv4()`, modelled by
`freshUuid`) and inserted; ANY insert error — the duplicate-email UNIQUE
violation included — is answered with status 500 and the sqlite error
message; otherwise 201 with `{...req.body, id}`.  Returns the response and
the table rows afterwards. -/
def postContactsHandler (rows : List Contact) (freshUuid : String)
    (body : Contact) : ServerResponse × List Contact :=
  let cid := jsOr body.id freshUuid
  if dbInsertFails rows body.email cid then
    ({ status := 500, contact := none
       errorMsg := some "SQLITE_CONSTRAINT: UNIQUE constraint failed: contacts.email" },
     rows)
  else
    ({ status := 201, contact := some { body with id := some cid }, errorMsg := none },
     rows ++ [{ body with id := some cid }])

/-- Spec-side definition, following the words of the specification of
`drainAndReplay`: the subsequence of the queued records whose remote call
failed, with `outcome i` the success of the call for the record at position
`i`.  To be compared with what the drain code persists. -/
def specFailedRecords (outcome : Nat → Bool) : Nat → List PendingOperation →
    List PendingOperation
  | _, [] => []
  | i, op :: rest =>
    if outcome i then specFailedRecords outcome (i + 1) rest
    else op :: specFailedRecords outcome (i + 1) rest

theorem drainLoop_fst (outcome : Nat → Bool) :
    ∀ (ops : List PendingOperation) (i : Nat),
      (drainLoop outcome i ops).1 = ops.map opToCall
  | [], _ => rfl
  | op :: rest, i => by
    simp only [drainLoop, List.map_cons]
    exact congrArg _ (drainLoop_fst outcome rest (i + 1))

theorem mem_drainLoop_snd (outcome : Nat → Bool) :
    ∀ (ops : List PendingOperation) (i : Nat) (x : String),
      x ∈ (drainLoop outcome i ops).2 → x ∈ ops.map (fun op => op.id)
  | [], _, _, h => by simp only [drainLoop] at h; exact absurd h (List.not_mem_nil _)
  | op :: rest, i, x, h => by
    simp only [drainLoop] at h
    simp only [List.map_cons, List.mem_cons]
    by_cases ho : outcome i
    · rw [if_pos ho] at h
      rcases List.mem_cons.mp h with h1 | h2
      · exact Or.inl h1
      · exact Or.inr (mem_drainLoop_snd outcome rest (i + 1) x h2)
    · rw [if_neg ho] at h
      exact Or.inr (mem_drainLoop_snd outcome rest (i + 1) x h)

theorem drain_filter_eq_specFailed (outcome : Nat → Bool) :
    ∀ (ops : List PendingOperation) (i : Nat),
      (ops.map (fun op => op.id)).Nodup →
      ops.filter (fun op => !((drainLoop outcome i ops).2.contains op.id)) =
        specFailedRecords outcome i ops
  | [], _, _ => rfl
  | op :: rest, i, h => by
    simp only [List.map_cons, List.nodup_cons] at h
    obtain ⟨hnotin, hnd⟩ := h
    simp only [drainLoop, specFailedRecords]
    by_cases ho : outcome i
    · rw [if_pos ho, if_pos ho]
      rw [List.filter_cons]
      have hhead : ((op.id :: (drainLoop outcome (i + 1) rest).2).contains op.id) = true := by
        simp [List.contains_cons]
      rw [hhead]
      simp only [Bool.not_true, if_neg (by simp : ¬ (false = true))]
      have hcongr : ∀ x ∈ rest,
          (!((op.id :: (drainLoop outcome (i + 1) rest).2).contains x.id)) =
          (!((drainLoop outcome (i + 1) rest).2.contains x.id)) := by
        intro x hx
        have hne : ¬ (x.id == op.id) = true := by
          intro hbeq
          exact hnotin (beq_iff_eq.mp hbeq ▸ List.mem_map_of_mem (fun o => o.id) hx)
        simp only [List.contains_cons, Bool.or_eq_true, not_or] at *
        simp [List.contains_cons, Bool.not_or, Bool.eq_false_iff.mpr hne]
      rw [List.filter_congr hcongr]
      exact drain_filter_eq_specFailed outcome rest (i + 1) hnd
    · rw [if_neg ho, if_neg ho]
      rw [List.filter_cons]
      have hhead : ((drainLoop outcome (i + 1) rest).2.contains op.id) = false := by
        rw [Bool.eq_false_iff]
        intro hc
        exact hnotin (mem_drainLoop_snd outcome rest (i + 1) op.id
          (List.mem_of_elem_eq_true hc))
      rw [hhead]
      simp only [Bool.not_false]
      rw [if_true]
      exact congrArg _ (drain_filter_eq_specFailed outcome rest (i + 1) hnd)

theorem specFailedRecords_length (outcome : Nat → Bool) :
    ∀ (ops : List PendingOperation) (i : Nat),
      (specFailedRecords outcome i ops).length + (drainLoop outcome i ops).2.length =
        ops.length
  | [], _ => rfl
  | op :: rest, i => by
    simp only [drainLoop, specFailedRecords, List.length_cons]
    by_cases ho : outcome i
    · rw [if_pos ho, if_pos ho]
      simp only [List.length_cons]
      rw [Nat.add_succ, specFailedRecords_length outcome rest (i + 1)]
    · rw [if_neg ho, if_neg ho]
      simp only [List.length_cons]
      rw [Nat.succ_add, specFailedRecords_length outcome rest (i + 1)]

theorem loadContacts_pendingOps (online : Bool) (g : GetContactsResult) (st : ClientState) :
    (loadContacts online g st).pendingOps = st.pendingOps := by
  cases online <;> cases g <;> rfl

theorem loadContacts_logWrites (online : Bool) (g : GetContactsResult) (st : ClientState) :
    (loadContacts online g st).logWrites = [] := by
  cases online <;> cases g <;> rfl

theorem loadContacts_calls_not_mutating (online : Bool) (g : GetContactsResult)
    (st : ClientState) :
    ((loadContacts online g st).remoteCalls).all (fun c => !(isMutationCall c)) = true := by
  cases online <;> cases g <;> rfl

/-- A concrete picture used by the concrete instances below. -/
def samplePicture : Picture :=
  { large := "pic-L", medium := "pic-M", thumbnail := "pic-T" }

/-- Builds a concrete contact for the concrete instances below. -/
def mkContact (cid email : String) (pic : Picture) : Contact :=
  { id := some cid
    name := { first := "Ada", last := "Lovelace" }
    email := email
    phone := "100"
    cell := "200"
    location :=
      { street := { number := 1, name := "Main" }
        city := "Springfield", state := "IL", country := "US", postcode := "62704" }
    picture := pic
    dob := { date := "1990-01-01", age := 30 }
    registered := { date := "2020-01-01", age := 0 }
    isOnline := none
    pendingSync := none
    isFavorite := none }

/-- A concrete queued CREATE record. -/
def opA : PendingOperation :=
  { id := "op-a", operation := .CREATE, data := mkContact "c1" "a@b.com" samplePicture
    timestamp := "t1", retryCount := 0 }

/-- A concrete queued UPDATE record with a distinct log id. -/
def opB : PendingOperation :=
  { id := "op-b", operation := .UPDATE, data := mkContact "c1" "a@b.com" samplePicture
    timestamp := "t2", retryCount := 0 }

/-- A concrete client state with two queued records of distinct log ids. -/
def stDrain : ClientState :=
  { contacts := [], storedContacts := [], pendingOps := [opA, opB], errorMsg := none }

/-- A queued CREATE record whose log id collides with `opDupUpdate` (the log
ids come from `Date.now().toString()`, so two appends in the same
millisecond collide). -/
def opDupCreate : PendingOperation :=
  { id := "1700000000000", operation := .CREATE
    data := mkContact "c1" "a@b.com" samplePicture, timestamp := "t1", retryCount := 0 }

/-- A queued UPDATE record sharing the log id of `opDupCreate`. -/
def opDupUpdate : PendingOperation :=
  { id := "1700000000000", operation := .UPDATE
    data := mkContact "c1" "a@b.com" samplePicture, timestamp := "t1", retryCount := 0 }

/-- A concrete client state whose two queued records share one log id. -/
def stDup : ClientState :=
  { contacts := [], storedContacts := [], pendingOps := [opDupCreate, opDupUpdate]
    errorMsg := none }

/-- Claim C1, counterexample: with a persisted log of two records sharing the
log id (reachable, since `addPendingOperation` derives the id from
`Date.now().toString()`), and outcomes where the first remote call succeeds
and the second fails, the drain persists the empty log — not the subsequence
of records whose remote call failed — and removes two records although only
one call succeeded. -/
theorem syncPendingOperations_duplicate_id_counterexample :
    (syncPendingOperations (fun i => decide (i = 0)) true (.ok []) stDup).logWrites = [[]] ∧
    specFailedRecords (fun i => decide (i = 0)) 0 stDup.pendingOps = [opDupUpdate] ∧
    (syncPendingOperations (fun i => decide (i = 0)) true (.ok []) stDup).logWrites ≠
      [specFailedRecords (fun i => decide (i = 0)) 0 stDup.pendingOps] ∧
    stDup.pendingOps.length = 2 ∧
    (syncPendingOperations (fun i => decide (i = 0)) true (.ok []) stDup).pendingOps.length = 0 ∧
    (drainLoop (fun i => decide (i = 0)) 0 stDup.pendingOps).2.length = 1 := by
  decide

/-- Claim C1 (amended: the records of the persisted log must carry pairwise
distinct log ids, and the log must be nonempty): the drain invokes the
remote call of every queued record in insertion order — a failure on one
record does not prevent the call for any later record, and no further
mutation call is issued — the log is persisted exactly once, as the
subsequence of records whose remote call failed, and the number of removed
records equals the number of successful calls. -/
theorem syncPendingOperations_drains_in_order (outcome : Nat → Bool) (online : Bool)
    (serverGet : GetContactsResult) (st : ClientState)
    (hne : st.pendingOps ≠ []) (hids : (st.pendingOps.map (fun op => op.id)).Nodup) :
    (syncPendingOperations outcome online serverGet st).remoteCalls.take
        st.pendingOps.length = st.pendingOps.map opToCall ∧
    ((syncPendingOperations outcome online serverGet st).remoteCalls.drop
        st.pendingOps.length).all (fun c => !(isMutationCall c)) = true ∧
    (syncPendingOperations outcome online serverGet st).logWrites =
        [specFailedRecords outcome 0 st.pendingOps] ∧
    (syncPendingOperations outcome online serverGet st).pendingOps =
        specFailedRecords outcome 0 st.pendingOps ∧
    (syncPendingOperations outcome online serverGet st).pendingOps.length +
        (drainLoop outcome 0 st.pendingOps).2.length = st.pendingOps.length := by
  have hlen : st.pendingOps.length > 0 := List.length_pos.mpr hne
  have hfilter := drain_filter_eq_specFailed outcome st.pendingOps 0 hids
  have hfst := drainLoop_fst outcome st.pendingOps 0
  have hflen := specFailedRecords_length outcome st.pendingOps 0
  by_cases hs : (drainLoop outcome 0 st.pendingOps).2.length > 0
  · have hres : syncPendingOperations outcome online serverGet st =
        { contacts := (loadContacts online serverGet
            { contacts := st.contacts, storedContacts := st.storedContacts
              pendingOps := st.pendingOps.filter
                (fun op => !((drainLoop outcome 0 st.pendingOps).2.contains op.id))
              errorMsg := st.errorMsg }).contacts
          storedContacts := (loadContacts online serverGet
            { contacts := st.contacts, storedContacts := st.storedContacts
              pendingOps := st.pendingOps.filter
                (fun op => !((drainLoop outcome 0 st.pendingOps).2.contains op.id))
              errorMsg := st.errorMsg }).storedContacts
          pendingOps := (loadContacts online serverGet
            { contacts := st.contacts, storedContacts := st.storedContacts
              pendingOps := st.pendingOps.filter
                (fun op => !((drainLoop outcome 0 st.pendingOps).2.contains op.id))
              errorMsg := st.errorMsg }).pendingOps
          errorMsg := (loadContacts online serverGet
            { contacts := st.contacts, storedContacts := st.storedContacts
              pendingOps := st.pendingOps.filter
                (fun op => !((drainLoop outcome 0 st.pendingOps).2.contains op.id))
              errorMsg := st.errorMsg }).errorMsg
          remoteCalls := (drainLoop outcome 0 st.pendingOps).1 ++
            (loadContacts online serverGet
            { contacts := st.contacts, storedContacts := st.storedContacts
              pendingOps := st.pendingOps.filter
                (fun op => !((drainLoop outcome 0 st.pendingOps).2.contains op.id))
              errorMsg := st.errorMsg }).remoteCalls
          logWrites := [st.pendingOps.filter
              (fun op => !((drainLoop outcome 0 st.pendingOps).2.contains op.id))] ++
            (loadContacts online serverGet
            { contacts := st.contacts, storedContacts := st.storedContacts
              pendingOps := st.pendingOps.filter
                (fun op => !((drainLoop outcome 0 st.pendingOps).2.contains op.id))
              errorMsg := st.errorMsg }).logWrites
          snapshotWrites := (loadContacts online serverGet
            { contacts := st.contacts, storedContacts := st.storedContacts
              pendingOps := st.pendingOps.filter
                (fun op => !((drainLoop outcome 0 st.pendingOps).2.contains op.id))
              errorMsg := st.errorMsg }).snapshotWrites
          ret := true } := by
      unfold syncPendingOperations
      rw [if_pos hlen, if_pos hs]
    rw [hres]
    dsimp only
    rw [loadContacts_logWrites, loadContacts_pendingOps]
    dsimp only
    rw [hfst, hfilter]
    refine ⟨?_, ?_, rfl, rfl, ?_⟩
    · rw [show st.pendingOps.length = (st.pendingOps.map opToCall).length from
        (List.length_map _ _).symm, List.take_left]
    · rw [show st.pendingOps.length = (st.pendingOps.map opToCall).length from
        (List.length_map _ _).symm, List.drop_left]
      exact loadContacts_calls_not_mutating online serverGet _
    · exact hflen
  · have hres : syncPendingOperations outcome online serverGet st =
        { contacts := st.contacts, storedContacts := st.storedContacts
          pendingOps := st.pendingOps.filter
            (fun op => !((drainLoop outcome 0 st.pendingOps).2.contains op.id))
          errorMsg := st.errorMsg
          remoteCalls := (drainLoop outcome 0 st.pendingOps).1
          logWrites := [st.pendingOps.filter
            (fun op => !((drainLoop outcome 0 st.pendingOps).2.contains op.id))]
          snapshotWrites := [], ret := false } := by
      unfold syncPendingOperations
      rw [if_pos hlen, if_neg hs]
    rw [hres]
    dsimp only
    rw [hfst, hfilter]
    refine ⟨?_, ?_, rfl, rfl, ?_⟩
    · rw [show st.pendingOps.length = (st.pendingOps.map opToCall).length from
        (List.length_map _ _).symm, List.take_length]
    · rw [show st.pendingOps.length = (st.pendingOps.map opToCall).length from
        (List.length_map _ _).symm, List.drop_length]
      rfl
    · exact hflen

/-- Claim C1, witness: the amended drain theorem applied to the concrete
two-record log `stDrain` where the first call succeeds and the second
fails. -/
theorem syncPendingOperations_drains_in_order_witness :
    (syncPendingOperations (fun i => decide (i = 0)) true (.ok []) stDrain).remoteCalls.take
        stDrain.pendingOps.length = stDrain.pendingOps.map opToCall ∧
    ((syncPendingOperations (fun i => decide (i = 0)) true (.ok []) stDrain).remoteCalls.drop
        stDrain.pendingOps.length).all (fun c => !(isMutationCall c)) = true ∧
    (syncPendingOperations (fun i => decide (i = 0)) true (.ok []) stDrain).logWrites =
        [specFailedRecords (fun i => decide (i = 0)) 0 stDrain.pendingOps] ∧
    (syncPendingOperations (fun i => decide (i = 0)) true (.ok []) stDrain).pendingOps =
        specFailedRecords (fun i => decide (i = 0)) 0 stDrain.pendingOps ∧
    (syncPendingOperations (fun i => decide (i = 0)) true (.ok []) stDrain).pendingOps.length +
        (drainLoop (fun i => decide (i = 0)) 0 stDrain.pendingOps).2.length =
        stDrain.pendingOps.length :=
  syncPendingOperations_drains_in_order (fun i => decide (i = 0)) true (.ok []) stDrain
    (by decide) (by decide)

theorem jsOrStr_of_ne (s : String) (hs : s ≠ "") : jsOrStr s "" = s := by
  simp [jsOrStr, hs]

theorem updateContactBuild_picture_preserved (nowIso genId id : String)
    (cache : List Contact) (formData : ContactFormData) (ec : Contact)
    (hfind : cache.find? (fun c => c.id == some id) = some ec)
    (hl : ec.picture.large ≠ "") (hm : ec.picture.medium ≠ "")
    (ht : ec.picture.thumbnail ≠ "")
    (hnp : ¬ (isNewPictureProvided formData.picture ec.picture = true)) :
    (updateContactBuild nowIso genId cache id formData).picture = ec.picture := by
  simp only [updateContactBuild, hfind]
  rw [if_neg hnp]
  show Picture.mk (jsOrStr ec.picture.large "") (jsOrStr ec.picture.medium "")
    (jsOrStr ec.picture.thumbnail "") = ec.picture
  rw [jsOrStr_of_ne _ hl, jsOrStr_of_ne _ hm, jsOrStr_of_ne _ ht]

theorem updateContactBuild_picture_replaced (nowIso genId id : String)
    (cache : List Contact) (formData : ContactFormData) (ec : Contact) (p : String)
    (hfind : cache.find? (fun c => c.id == some id) = some ec)
    (hfp : formData.picture = some p) (hpne : p ≠ "")
    (hnew : isNewPictureProvided formData.picture ec.picture = true) :
    (updateContactBuild nowIso genId cache id formData).picture =
      { large := p, medium := p, thumbnail := p } := by
  simp only [updateContactBuild, hfind]
  rw [if_pos hnew]
  show Picture.mk (jsOr formData.picture "") (jsOr formData.picture "")
    (jsOr formData.picture "") = _
  rw [hfp]
  show Picture.mk (jsOrStr p "") (jsOrStr p "") (jsOrStr p "") = _
  rw [jsOrStr_of_ne _ hpne]

/-- Claim C2: for an update of a contact whose id is found in the cached
snapshot and whose three cached picture URLs are nonempty, a form picture
that is absent or equal to any one of the three existing URLs leaves all
three preserved in the built contact, and the submitted picture replaces
all three exactly when it is nonempty and differs from all three. -/
theorem updateContact_picture_preservation (nowIso genId id : String)
    (cache : List Contact) (formData : ContactFormData) (ec : Contact)
    (hfind : cache.find? (fun c => c.id == some id) = some ec)
    (hl : ec.picture.large ≠ "") (hm : ec.picture.medium ≠ "")
    (ht : ec.picture.thumbnail ≠ "") :
    ((formData.picture = none ∨ formData.picture = some ec.picture.large ∨
        formData.picture = some ec.picture.medium ∨
        formData.picture = some ec.picture.thumbnail) →
      (updateContactBuild nowIso genId cache id formData).picture = ec.picture) ∧
    (∀ p, formData.picture = some p → p ≠ "" → p ≠ ec.picture.large →
        p ≠ ec.picture.medium → p ≠ ec.picture.thumbnail →
      (updateContactBuild nowIso genId cache id formData).picture =
        { large := p, medium := p, thumbnail := p }) ∧
    ((updateContactBuild nowIso genId cache id formData).picture = ec.picture ∨
      ∃ p, formData.picture = some p ∧ p ≠ "" ∧ p ≠ ec.picture.large ∧
        p ≠ ec.picture.medium ∧ p ≠ ec.picture.thumbnail ∧
        (updateContactBuild nowIso genId cache id formData).picture =
          { large := p, medium := p, thumbnail := p }) := by
  refine ⟨?_, ?_, ?_⟩
  · intro hcase
    apply updateContactBuild_picture_preserved nowIso genId id cache formData ec hfind hl hm ht
    rcases hcase with h | h | h | h <;> simp [isNewPictureProvided, h]
  · intro p hfp hp1 hp2 hp3 hp4
    apply updateContactBuild_picture_replaced nowIso genId id cache formData ec p hfind hfp hp1
    simp [isNewPictureProvided, hfp, hp1, hp2, hp3, hp4]
  · by_cases hnew : isNewPictureProvided formData.picture ec.picture = true
    · right
      cases hfp : formData.picture with
      | none => rw [hfp] at hnew; simp [isNewPictureProvided] at hnew
      | some p =>
          rw [hfp] at hnew
          simp only [isNewPictureProvided, Bool.and_eq_true, Bool.not_eq_true',
            beq_eq_false_iff_ne, ne_eq] at hnew
          obtain ⟨⟨⟨h1, h2⟩, h3⟩, h4⟩ := hnew
          refine ⟨p, rfl, h1, h2, h3, h4, ?_⟩
          apply updateContactBuild_picture_replaced nowIso genId id cache formData ec p hfind
            hfp h1
          simp [isNewPictureProvided, hfp, h1, h2, h3, h4]
    · exact Or.inl
        (updateContactBuild_picture_preserved nowIso genId id cache formData ec hfind
          hl hm ht hnew)

/-- A concrete cached contact with nonempty picture URLs. -/
def sampleCached : Contact := mkContact "c1" "a@b.com" samplePicture

/-- A concrete submitted form whose picture field is absent. -/
def sampleForm : ContactFormData :=
  { id := none, firstName := "Ada", lastName := "Lovelace", email := "a@b.com"
    phone := "100", cell := "200", street := "Main", city := "Springfield"
    state := "IL", country := "US", postcode := "62704", age := 30
    picture := none }

/-- Claim C2, witness: the picture-preservation theorem applied to a
concrete cache holding one contact with nonempty picture URLs and a form
without a picture: the built contact keeps the cached picture. -/
theorem updateContact_picture_preservation_witness :
    (updateContactBuild "2024-01-01" "g1" [sampleCached] "c1" sampleForm).picture =
      sampleCached.picture :=
  (updateContact_picture_preservation "2024-01-01" "g1" "c1" [sampleCached] sampleForm
      sampleCached (by decide) (by decide) (by decide) (by decide)).1 (Or.inl rfl)

/-- A concrete client state holding exactly the cached contact `c1`. -/
def stDel : ClientState :=
  { contacts := [sampleCached], storedContacts := [sampleCached], pendingOps := []
    errorMsg := none }

/-- Claim C3, counterexample: an online delete whose remote DELETE is
answered with a failure (a 404 rejection) leaves the contact in the cached
snapshot, persists nothing, and returns false — the optimistic removal
claimed regardless of the remote outcome does not happen. -/
theorem deleteContact_remote_failure_counterexample :
    sampleCached.id = some "c1" ∧
    (deleteContact true .failed "l1" "t1" stDel "c1").contacts = [sampleCached] ∧
    (deleteContact true .failed "l1" "t1" stDel "c1").snapshotWrites = [] ∧
    (deleteContact true .failed "l1" "t1" stDel "c1").errorMsg =
      some "Failed to delete contact" ∧
    (deleteContact true .failed "l1" "t1" stDel "c1").ret = false := by
  decide

/-- Claim C3 (amended): deleteContact removes the contact from the cached
snapshot and persists the filtered snapshot when offline, or when online and
the remote DELETE succeeds; when online and the remote call fails (a
404-class response included), the error is caught, the failure message set,
false returned, and the cached snapshot is left unchanged and unpersisted. -/
theorem deleteContact_removal (online : Bool) (remote : DeleteResult)
    (logId logTs : String) (st : ClientState) (id : String) :
    ((online = false ∨ remote = .ok) →
      (deleteContact online remote logId logTs st id).contacts =
        st.contacts.filter (fun c => !(c.id == some id)) ∧
      (deleteContact online remote logId logTs st id).storedContacts =
        st.contacts.filter (fun c => !(c.id == some id)) ∧
      (deleteContact online remote logId logTs st id).snapshotWrites =
        [st.contacts.filter (fun c => !(c.id == some id))] ∧
      (deleteContact online remote logId logTs st id).ret = true) ∧
    (online = true → remote = .failed →
      (deleteContact online remote logId logTs st id).contacts = st.contacts ∧
      (deleteContact online remote logId logTs st id).storedContacts = st.storedContacts ∧
      (deleteContact online remote logId logTs st id).pendingOps = st.pendingOps ∧
      (deleteContact online remote logId logTs st id).snapshotWrites = [] ∧
      (deleteContact online remote logId logTs st id).logWrites = [] ∧
      (deleteContact online remote logId logTs st id).errorMsg =
        some "Failed to delete contact" ∧
      (deleteContact online remote logId logTs st id).ret = false) := by
  constructor
  · intro h
    rcases h with h | h
    · subst h
      exact ⟨rfl, rfl, rfl, rfl⟩
    · subst h
      cases online
      · exact ⟨rfl, rfl, rfl, rfl⟩
      · exact ⟨rfl, rfl, rfl, rfl⟩
  · intro h1 h2
    subst h1; subst h2
    exact ⟨rfl, rfl, rfl, rfl, rfl, rfl, rfl⟩

/-- Claim C3, witness: the amended delete theorem applied to a concrete
offline delete of the cached contact. -/
theorem deleteContact_removal_witness :
    (deleteContact false .ok "l1" "t1" stDel "c1").contacts =
      stDel.contacts.filter (fun c => !(c.id == some "c1")) ∧
    (deleteContact false .ok "l1" "t1" stDel "c1").storedContacts =
      stDel.contacts.filter (fun c => !(c.id == some "c1")) ∧
    (deleteContact false .ok "l1" "t1" stDel "c1").snapshotWrites =
      [stDel.contacts.filter (fun c => !(c.id == some "c1"))] ∧
    (deleteContact false .ok "l1" "t1" stDel "c1").ret = true :=
  (deleteContact_removal false .ok "l1" "t1" stDel "c1").1 (Or.inl rfl)

/-- Claim C4: an offline createContact assigns the locally generated id,
sets pendingSync, appends the contact to the cached snapshot, persists it
once, appends exactly one CREATE record carrying the full contact to the
pending-operation log, issues no remote call, returns the contact and sets
no failure signal. -/
theorem createContact_offline_queues (post : PostContactResult)
    (nowIso genId1 genId2 logId logTs : String) (st : ClientState)
    (formData : ContactFormData) :
    ∃ c : Contact,
      (createContact false post nowIso genId1 genId2 logId logTs st formData).ret =
        some c ∧
      c.id = some genId2 ∧ c.pendingSync = some true ∧
      (createContact false post nowIso genId1 genId2 logId logTs st formData).contacts =
        st.contacts ++ [c] ∧
      (createContact false post nowIso genId1 genId2 logId logTs st formData).storedContacts =
        st.contacts ++ [c] ∧
      (createContact false post nowIso genId1 genId2 logId logTs st formData).snapshotWrites =
        [st.contacts ++ [c]] ∧
      (createContact false post nowIso genId1 genId2 logId logTs st formData).pendingOps =
        st.pendingOps ++ [{ id := logId, operation := .CREATE, data := c
                            timestamp := logTs, retryCount := 0 }] ∧
      (createContact false post nowIso genId1 genId2 logId logTs st formData).logWrites =
        [st.pendingOps ++ [{ id := logId, operation := .CREATE, data := c
                             timestamp := logTs, retryCount := 0 }]] ∧
      (createContact false post nowIso genId1 genId2 logId logTs st formData).remoteCalls =
        [] ∧
      (createContact false post nowIso genId1 genId2 logId logTs st formData).errorMsg =
        st.errorMsg :=
  ⟨{ transformFormDataToContact nowIso genId1 formData none with
      id := some genId2, pendingSync := some true },
    rfl, rfl, rfl, rfl, rfl, rfl, rfl, rfl, rfl, rfl⟩

/-- A contact whose email collides with the one already stored server-side. -/
def dupBody : Contact := mkContact "c2" "a@b.com" samplePicture

/-- The server table already holding a row with email `a@b.com`. -/
def serverRows : List Contact := [mkContact "c1" "a@b.com" samplePicture]

/-- Claim C5: the backend answers a duplicate-email POST with status 500 —
not the documented 409 — so the client catch branch, which keys the
distinguishable duplicate-email message on status 409, surfaces only the
generic failure. -/
theorem post_contacts_duplicate_email_bug :
    dupBody.email = (mkContact "c1" "a@b.com" samplePicture).email ∧
    (postContactsHandler serverRows "uuid-2" dupBody).1.status = 500 ∧
    ¬ (postContactsHandler serverRows "uuid-2" dupBody).1.status = 409 ∧
    (postContactsHandler serverRows "uuid-2" dupBody).2 = serverRows ∧
    (createContact true
      (.failedStatus (postContactsHandler serverRows "uuid-2" dupBody).1.status
        (postContactsHandler serverRows "uuid-2" dupBody).1.errorMsg)
      "now" "g1" "g2" "l1" "t1"
      { contacts := serverRows, storedContacts := serverRows, pendingOps := []
        errorMsg := none }
      sampleForm).errorMsg = some "Failed to create contact" := by
  decide

/-- The picture held only locally in the soft-refresh scenario. -/
def localPic : Picture := { large := "local-L", medium := "local-M", thumbnail := "local-T" }

/-- The picture the server returns in the soft-refresh scenario. -/
def serverPic : Picture := { large := "server-L", medium := "server-M", thumbnail := "server-T" }

/-- The locally cached contact of the soft-refresh scenario. -/
def localContact : Contact := mkContact "c1" "a@b.com" localPic

/-- The same contact as the server returns it, with different picture URLs. -/
def serverContact : Contact := mkContact "c1" "a@b.com" serverPic

/-- A client state whose pending-operation log is empty and whose cache
holds `localContact`. -/
def stSoft : ClientState :=
  { contacts := [localContact], storedContacts := [localContact], pendingOps := []
    errorMsg := none }

/-- Claim C6, counterexample: draining with an empty log triggers the
registered refresh callback, a full reload that overwrites the cache with
the server contacts verbatim — the locally held picture is lost — whereas
the picture-preserving merge the claim describes (implemented by the
never-invoked `softRefreshContacts`) would have kept it. -/
theorem syncPendingOperations_empty_log_counterexample :
    serverContact.id = localContact.id ∧
    ¬ serverContact.picture = localContact.picture ∧
    (syncPendingOperations (fun _ => true) true (.ok [serverContact]) stSoft).contacts =
      [serverContact] ∧
    (syncPendingOperations (fun _ => true) true (.ok [serverContact]) stSoft).storedContacts =
      [serverContact] ∧
    (syncPendingOperations (fun _ => true) true (.ok [serverContact]) stSoft).snapshotWrites =
      [[serverContact]] ∧
    (softRefreshContacts (.ok [serverContact]) stSoft).ret =
      some [{ serverContact with picture := localContact.picture }] ∧
    ¬ ({ serverContact with picture := localContact.picture } = serverContact) := by
  decide

/-- Claim C6 (amended): when the drain routine runs with an empty
pending-operation log it writes nothing to the log, issues no remote
mutation, returns false, and performs a plain full reload through the
registered refresh callback: on a successful fetch the server contacts
replace the cache and the persisted snapshot verbatim, without the
picture-preserving merge (which lives in the uninvoked
`softRefreshContacts`). -/
theorem syncPendingOperations_empty_log (outcome : Nat → Bool) (online : Bool)
    (serverGet : GetContactsResult) (st : ClientState) (h : st.pendingOps = []) :
    (syncPendingOperations outcome online serverGet st).ret = false ∧
    (syncPendingOperations outcome online serverGet st).logWrites = [] ∧
    (syncPendingOperations outcome online serverGet st).pendingOps = [] ∧
    ((syncPendingOperations outcome online serverGet st).remoteCalls).all
      (fun c => !(isMutationCall c)) = true ∧
    (∀ cs, serverGet = .ok cs → online = true →
      (syncPendingOperations outcome online serverGet st).contacts = cs ∧
      (syncPendingOperations outcome online serverGet st).storedContacts = cs ∧
      (syncPendingOperations outcome online serverGet st).snapshotWrites = [cs]) := by
  have h0 : ¬ (st.pendingOps.length > 0) := by rw [h]; exact Nat.lt_irrefl 0
  have hres : syncPendingOperations outcome online serverGet st =
      { contacts := (loadContacts online serverGet st).contacts
        storedContacts := (loadContacts online serverGet st).storedContacts
        pendingOps := (loadContacts online serverGet st).pendingOps
        errorMsg := (loadContacts online serverGet st).errorMsg
        remoteCalls := (loadContacts online serverGet st).remoteCalls
        logWrites := (loadContacts online serverGet st).logWrites
        snapshotWrites := (loadContacts online serverGet st).snapshotWrites
        ret := false } := by
    unfold syncPendingOperations
    rw [if_neg h0]
  rw [hres]
  refine ⟨rfl, loadContacts_logWrites online serverGet st, ?_, ?_, ?_⟩
  · rw [loadContacts_pendingOps, h]
  · exact loadContacts_calls_not_mutating online serverGet st
  · intro cs hcs hon
    subst hcs; subst hon
    exact ⟨rfl, rfl, rfl⟩

/-- Claim C6, witness: the empty-log drain theorem applied to the concrete
soft-refresh scenario state. -/
theorem syncPendingOperations_empty_log_witness :
    (syncPendingOperations (fun _ => true) true (.ok [serverContact]) stSoft).ret = false ∧
    (syncPendingOperations (fun _ => true) true (.ok [serverContact]) stSoft).logWrites = [] ∧
    (syncPendingOperations (fun _ => true) true (.ok [serverContact]) stSoft).pendingOps = [] ∧
    (syncPendingOperations (fun _ => true) true (.ok [serverContact]) stSoft).contacts =
      [serverContact] :=
  ⟨(syncPendingOperations_empty_log (fun _ => true) true (.ok [serverContact]) stSoft rfl).1,
    (syncPendingOperations_empty_log (fun _ => true) true (.ok [serverContact]) stSoft rfl).2.1,
    (syncPendingOperations_empty_log (fun _ => true) true (.ok [serverContact]) stSoft
      rfl).2.2.1,
    ((syncPendingOperations_empty_log (fun _ => true) true (.ok [serverContact]) stSoft
      rfl).2.2.2.2 [serverContact] rfl rfl).1⟩

/-- Claim C7: an offline addRandomContacts returns the empty result set,
sets only the offline error message, issues no remote call and leaves the
cached snapshot and the pending-operation log untouched. -/
theorem addRandomContacts_offline_noop (randomPost : PostRandomResult)
    (serverGet : GetContactsResult) (count : Int) (st : ClientState) :
    (addRandomContacts false randomPost serverGet count st).ret = [] ∧
    (addRandomContacts false randomPost serverGet count st).errorMsg =
      some "Cannot add random contacts while offline" ∧
    (addRandomContacts false randomPost serverGet count st).contacts = st.contacts ∧
    (addRandomContacts false randomPost serverGet count st).storedContacts =
      st.storedContacts ∧
    (addRandomContacts false randomPost serverGet count st).pendingOps = st.pendingOps ∧
    (addRandomContacts false randomPost serverGet count st).remoteCalls = [] ∧
    (addRandomContacts false randomPost serverGet count st).logWrites = [] ∧
    (addRandomContacts false randomPost serverGet count st).snapshotWrites = [] :=
  ⟨rfl, rfl, rfl, rfl, rfl, rfl, rfl, rfl⟩

theorem syncPendingOperations_pendingOps_eq (outcome : Nat → Bool) (online : Bool)
    (serverGet : GetContactsResult) (st : ClientState) :
    (syncPendingOperations outcome online serverGet st).pendingOps =
      st.pendingOps.filter
        (fun op => !((drainLoop outcome 0 st.pendingOps).2.contains op.id)) := by
  unfold syncPendingOperations
  by_cases hlen : st.pendingOps.length > 0
  · rw [if_pos hlen]
    by_cases hs : (drainLoop outcome 0 st.pendingOps).2.length > 0
    · rw [if_pos hs]
      dsimp only
      rw [loadContacts_pendingOps]
    · rw [if_neg hs]
  · rw [if_neg hlen]
    dsimp only
    rw [loadContacts_pendingOps]
    have hnil : st.pendingOps = [] := by
      cases hsp : st.pendingOps with
      | nil => rfl
      | cons a l => rw [hsp] at hlen; exact absurd (Nat.succ_pos _) hlen
    rw [hnil]
    rfl

/-- Claim C8: appending to the pending-operation log creates the new record
with the supplied fresh id, the supplied timestamp and `retryCount = 0`, so
the all-zero `retryCount` invariant is preserved; and the drain routine only
removes records — the persisted survivors form a sublist of the original
log, every surviving record verbatim — so no replay logic ever increments
`retryCount`. -/
theorem pending_log_retryCount_invariant (logId logTs : String) (o : OpType) (c : Contact)
    (log : List PendingOperation) (outcome : Nat → Bool) (online : Bool)
    (serverGet : GetContactsResult) (st : ClientState) :
    (addPendingOperation logId logTs o c log =
      log ++ [{ id := logId, operation := o, data := c, timestamp := logTs
                retryCount := 0 }]) ∧
    (log.all (fun r => r.retryCount == 0) = true →
      (addPendingOperation logId logTs o c log).all (fun r => r.retryCount == 0) = true) ∧
    (syncPendingOperations outcome online serverGet st).pendingOps.Sublist st.pendingOps ∧
    (st.pendingOps.all (fun r => r.retryCount == 0) = true →
      (syncPendingOperations outcome online serverGet st).pendingOps.all
        (fun r => r.retryCount == 0) = true) := by
  refine ⟨rfl, ?_, ?_, ?_⟩
  · intro hall
    rw [List.all_eq_true] at hall ⊢
    intro r hr
    rcases List.mem_append.mp hr with hmem | hmem
    · exact hall r hmem
    · rw [List.mem_singleton.mp hmem]
      rfl
  · rw [syncPendingOperations_pendingOps_eq]
    exact List.filter_sublist _
  · intro hall
    rw [List.all_eq_true] at hall ⊢
    intro r hr
    rw [syncPendingOperations_pendingOps_eq] at hr
    exact hall r (List.mem_of_mem_filter hr)

/-- Claim C8, witness: the invariant theorem applied to a concrete log and
drain state. -/
theorem pending_log_retryCount_invariant_witness :
    (addPendingOperation "l9" "t9" OpType.CREATE sampleCached [opA]).all
      (fun r => r.retryCount == 0) = true ∧
    (syncPendingOperations (fun i => decide (i = 0)) true (.ok []) stDrain).pendingOps.Sublist
      stDrain.pendingOps :=
  ⟨(pending_log_retryCount_invariant "l9" "t9" OpType.CREATE sampleCached [opA]
      (fun i => decide (i = 0)) true (.ok []) stDrain).2.1 (by decide),
    (pending_log_retryCount_invariant "l9" "t9" OpType.CREATE sampleCached [opA]
      (fun i => decide (i = 0)) true (.ok []) stDrain).2.2.1⟩

/-- Claim C9: loading the contact snapshot returns the decoded persisted
snapshot; a missing slot, a falsy empty payload or an unparseable payload
all yield the empty sequence, with no error escaping — a corrupt cache is
observationally an empty cache. -/
theorem loadContactsFromStorage_total (decode : String → Option (List Contact))
    (slot : Option String) :
    (slot = none → loadContactsFromStorage decode slot = []) ∧
    (∀ raw, slot = some raw → decode raw = none →
      loadContactsFromStorage decode slot = []) ∧
    (∀ raw cs, slot = some raw → raw ≠ "" → decode raw = some cs →
      loadContactsFromStorage decode slot = cs) := by
  refine ⟨?_, ?_, ?_⟩
  · intro h
    subst h
    rfl
  · intro raw h hd
    subst h
    show (if raw = "" then [] else (decode raw).getD []) = []
    by_cases hre : raw = ""
    · rw [if_pos hre]
    · rw [if_neg hre, hd]
      rfl
  · intro raw cs h hre hd
    subst h
    show (if raw = "" then [] else (decode raw).getD []) = cs
    rw [if_neg hre, hd]
    rfl

/-- A concrete decoder: the one payload `[snapshot]` decodes to the
single-contact snapshot, everything else fails to parse. -/
def decodeSample : String → Option (List Contact) :=
  fun s => if s = "[snapshot]" then some [sampleCached] else none

/-- Claim C9, witness: the load theorem applied to the concrete decoder on a
stored payload, on a missing slot, and on a corrupt payload. -/
theorem loadContactsFromStorage_total_witness :
    loadContactsFromStorage decodeSample (some "[snapshot]") = [sampleCached] ∧
    loadContactsFromStorage decodeSample none = [] ∧
    loadContactsFromStorage decodeSample (some "garbage") = [] :=
  ⟨(loadContactsFromStorage_total decodeSample (some "[snapshot]")).2.2 "[snapshot]"
      [sampleCached] rfl (by decide) rfl,
    (loadContactsFromStorage_total decodeSample none).1 rfl,
    (loadContactsFromStorage_total decodeSample (some "garbage")).2.1 "garbage" rfl
      (by decide)⟩

/-- Claim C10: the shared update path, run offline with an id that matches
no cached contact, returns null and leaves the cached snapshot, the stored
snapshot, the pending-operation log and the error signal unchanged, with no
remote call and no storage write. -/
theorem performContactUpdate_offline_unknown_id (put : PutContactResult)
    (logId logTs : String) (st : ClientState) (id : String) (uc : Contact)
    (errMsg : String)
    (h : st.contacts.findIdx? (fun x => x.id == some id) = none) :
    (performContactUpdate false put logId logTs st id uc errMsg).ret = none ∧
    (performContactUpdate false put logId logTs st id uc errMsg).contacts = st.contacts ∧
    (performContactUpdate false put logId logTs st id uc errMsg).storedContacts =
      st.storedContacts ∧
    (performContactUpdate false put logId logTs st id uc errMsg).pendingOps =
      st.pendingOps ∧
    (performContactUpdate false put logId logTs st id uc errMsg).errorMsg = st.errorMsg ∧
    (performContactUpdate false put logId logTs st id uc errMsg).remoteCalls = [] ∧
    (performContactUpdate false put logId logTs st id uc errMsg).logWrites = [] ∧
    (performContactUpdate false put logId logTs st id uc errMsg).snapshotWrites = [] := by
  have hres : performContactUpdate false put logId logTs st id uc errMsg =
      { contacts := st.contacts, storedContacts := st.storedContacts
        pendingOps := st.pendingOps, errorMsg := st.errorMsg
        remoteCalls := [], logWrites := [], snapshotWrites := [], ret := none } := by
    unfold performContactUpdate
    rw [if_neg Bool.false_ne_true, h]
  rw [hres]
  exact ⟨rfl, rfl, rfl, rfl, rfl, rfl, rfl, rfl⟩

/-- A concrete client state with an empty cache. -/
def stEmpty : ClientState :=
  { contacts := [], storedContacts := [], pendingOps := [], errorMsg := none }

/-- Claim C10, witness: the unknown-id theorem applied to a concrete offline
update against an empty cache. -/
theorem performContactUpdate_offline_unknown_id_witness :
    (performContactUpdate false .failed "l1" "t1" stEmpty "zz" sampleCached
      "Failed to update contact").ret = none ∧
    (performContactUpdate false .failed "l1" "t1" stEmpty "zz" sampleCached
      "Failed to update contact").contacts = stEmpty.contacts ∧
    (performContactUpdate false .failed "l1" "t1" stEmpty "zz" sampleCached
      "Failed to update contact").storedContacts = stEmpty.storedContacts ∧
    (performContactUpdate false .failed "l1" "t1" stEmpty "zz" sampleCached
      "Failed to update contact").pendingOps = stEmpty.pendingOps ∧
    (performContactUpdate false .failed "l1" "t1" stEmpty "zz" sampleCached
      "Failed to update contact").errorMsg = stEmpty.errorMsg ∧
    (performContactUpdate false .failed "l1" "t1" stEmpty "zz" sampleCached
      "Failed to update contact").remoteCalls = [] ∧
    (performContactUpdate false .failed "l1" "t1" stEmpty "zz" sampleCached
      "Failed to update contact").logWrites = [] ∧
    (performContactUpdate false .failed "l1" "t1" stEmpty "zz" sampleCached
      "Failed to update contact").snapshotWrites = [] :=
  performContactUpdate_offline_unknown_id .failed "l1" "t1" stEmpty "zz" sampleCached
    "Failed to update contact" (by decide)

end ContactManager
